import Mathlib

/-!
Shallow embedding of the PostgreSQL authentication system
(docker/postgres/init.sql and src/services/authService.js).

The store is the `userAuth` table: a list of rows. The pgcrypto digest
`encode(sha256(... ), 'hex')` is modelled by an arbitrary function
`H : String → String` applied to the concatenation `salt ++ password`,
and the random salt produced by `gen_random_bytes` is passed in as an
explicit argument (a random oracle). Timestamps are naturals, with the
current time `now` passed in explicitly. PL/pgSQL exceptions abort the
enclosing transaction, so a raising call leaves the store unchanged;
operations therefore return `Except DbErr`, and an `*Apply` wrapper
restores the original store on error.
-/

set_option autoImplicit false

namespace PgAuth

/-- A row of the `userAuth` table (init.sql lines 5-12):
`userId SERIAL PRIMARY KEY, mail UNIQUE NOT NULL, salt, hashpass,
created_at, updated_at`. -/
structure Account where
  userId : Nat
  mail : String
  salt : String
  hashpass : String
  created_at : Nat
  updated_at : Nat
  deriving DecidableEq, Repr

/-- The `userAuth` table contents. -/
abbrev Store := List Account

/-- `SELECT COUNT(*) FROM userAuth WHERE mail = m`. -/
def userCount (db : Store) (m : String) : Nat :=
  (db.filter (fun a => a.mail = m)).length

/-- `SELECT ... FROM userAuth WHERE mail = m` fetched `INTO` scalar
variables: the first matching row, `none` when `NOT FOUND`. -/
def findMail (db : Store) (m : String) : Option Account :=
  db.find? (fun a => a.mail = m)

/-- The errors the PL/pgSQL functions can raise. The first five are the
explicit `RAISE EXCEPTION` sites; `uniqueViolation` is the store-level
constraint error raised by an `INSERT` that violates the primary key on
`userId` or the `UNIQUE` constraint on `mail`; `driver` covers
connection-level failures raised outside SQL (e.g. by the pg pool). -/
inductive DbErr where
  | userExists (mail : String)
  | userNotFound (mail : String)
  | invalidOldPassword (mail : String)
  | invalidPassword (mail : String)
  | emailInUse (mail : String)
  | uniqueViolation (constraintName : String)
  | driver (msg : String)
  deriving DecidableEq, Repr

/-- The `SQLERRM` text of each error, as produced by the `RAISE
EXCEPTION` format strings in init.sql and by PostgreSQL for a
unique-constraint violation. -/
def DbErr.sqlerrm : DbErr → String
  | .userExists m => "User with email " ++ m ++ " already exists"
  | .userNotFound m => "User with email " ++ m ++ " does not exist"
  | .invalidOldPassword m => "Invalid old password for user " ++ m
  | .invalidPassword m => "Invalid password for user " ++ m
  | .emailInUse m => "Email " ++ m ++ " is already in use"
  | .uniqueViolation c => "duplicate key value violates unique constraint " ++ c
  | .driver msg => msg

/-- `INSERT INTO userAuth (userId, mail, salt, hashpass) VALUES ...`
(init.sql lines 94-95). The table constraints are checked: the primary
key on `userId` and the `UNIQUE` constraint on `mail`; a violation
raises the corresponding constraint error. `created_at` and
`updated_at` default to the current timestamp. -/
def insertRow (db : Store) (uid : Nat) (m salt hp : String) (now : Nat) :
    Except DbErr Store :=
  if db.any (fun a => a.userId = uid) then
    .error (.uniqueViolation "userauth_pkey")
  else if db.any (fun a => a.mail = m) then
    .error (.uniqueViolation "userauth_mail_key")
  else
    .ok (db ++ [⟨uid, m, salt, hp, now, now⟩])

/-- `signup(p_userId, p_mail, p_rawpass)` (init.sql lines 64-104):
count rows with the mail, raise `userExists` when positive, otherwise
hash `salt ++ rawpass` with the digest `H` and insert. A success
returns `TRUE` together with the new store. -/
def signup (H : String → String) (db : Store) (uid : Nat)
    (m rawpass salt : String) (now : Nat) : Except DbErr (Store × Bool) :=
  if userCount db m > 0 then
    .error (.userExists m)
  else
    let hashpass := H (salt ++ rawpass)
    match insertRow db uid m salt hashpass now with
    | .ok db' => .ok (db', true)
    | .error e => .error e

/-- The caller-level outcome of one `signup` call: a raised exception
aborts the transaction and leaves the store as it was. -/
def signupApply (H : String → String) (db : Store) (uid : Nat)
    (m rawpass salt : String) (now : Nat) : Store × Except DbErr Bool :=
  match signup H db uid m rawpass salt now with
  | .ok (db', b) => (db', .ok b)
  | .error e => (db, .error e)

/-- `authenticate(p_mail, p_rawpass)` (init.sql lines 107-144): fetch
salt and stored hash by mail; `NOT FOUND` returns `FALSE`; otherwise
recompute the hash of `salt ++ rawpass` and compare with the stored
hash. -/
def authenticate (H : String → String) (db : Store) (m rawpass : String) :
    Bool :=
  match findMail db m with
  | none => false
  | some a => H (a.salt ++ rawpass) = a.hashpass

/-- The `update_updated_at_column` trigger (init.sql lines 21-33),
fired `BEFORE UPDATE` on every updated row: sets `updated_at` to the
current timestamp. -/
def update_updated_at_column (now : Nat) (a : Account) : Account :=
  { a with updated_at := now }

/-- `change_password(p_mail, p_old_password, p_new_password)` (init.sql
lines 201-258): fetch by mail (`NOT FOUND` raises `userNotFound`),
verify the old password against the stored hash (mismatch raises
`invalidOldPassword`), then `UPDATE` salt and hash from a fresh salt;
the trigger refreshes `updated_at`. `ROW_COUNT` of the update decides
the returned boolean. -/
def change_password (H : String → String) (db : Store)
    (m oldPassword newPassword newSalt : String) (now : Nat) :
    Except DbErr (Store × Bool) :=
  match findMail db m with
  | none => .error (.userNotFound m)
  | some a =>
    if H (a.salt ++ oldPassword) ≠ a.hashpass then
      .error (.invalidOldPassword m)
    else
      let newHash := H (newSalt ++ newPassword)
      let db' := db.map (fun b =>
        if b.mail = m then
          update_updated_at_column now { b with salt := newSalt, hashpass := newHash }
        else b)
      if userCount db m > 0 then .ok (db', true) else .ok (db', false)

/-- `change_email(p_old_mail, p_new_mail, p_password)` (init.sql lines
261-322): fetch by old mail (`NOT FOUND` raises `userNotFound`), count
rows carrying the new mail and raise `emailInUse` when positive, verify
the password (mismatch raises `invalidPassword`), then `UPDATE` the
mail; the trigger refreshes `updated_at`. -/
def change_email (H : String → String) (db : Store)
    (oldMail newMail password : String) (now : Nat) :
    Except DbErr (Store × Bool) :=
  match findMail db oldMail with
  | none => .error (.userNotFound oldMail)
  | some a =>
    if userCount db newMail > 0 then
      .error (.emailInUse newMail)
    else if H (a.salt ++ password) ≠ a.hashpass then
      .error (.invalidPassword oldMail)
    else
      let db' := db.map (fun b =>
        if b.mail = oldMail then
          update_updated_at_column now { b with mail := newMail }
        else b)
      if userCount db oldMail > 0 then .ok (db', true) else .ok (db', false)

/-! ## The Node.js service layer (src/services/authService.js)

Each `AuthService` method issues one query; on success it maps the
returned boolean to a result object, and a thrown error is caught and
turned into `\x7b success: false, message: error.message,
error: error.code \x7d`. We model the error object thrown by the pg
driver and the result object returned to the caller. -/

/-- The error object the pg driver throws: `message` is the raw error
text, `code` the PostgreSQL error code (`P0001` for `RAISE EXCEPTION`,
`23505` for a unique violation) or a driver code such as
`ECONNREFUSED`. -/
structure JsError where
  message : String
  code : String
  deriving DecidableEq, Repr

/-- The PostgreSQL error code attached to each database error. -/
def DbErr.code : DbErr → String
  | .uniqueViolation _ => "23505"
  | .driver _ => "ECONNREFUSED"
  | _ => "P0001"

/-- The error object the JS layer receives when `signup` raises: the
`EXCEPTION WHEN OTHERS` handler re-raises with the prefix
`Error during signup: ` (init.sql lines 99-102). -/
def jsErrorOfSignup (e : DbErr) : JsError :=
  ⟨"Error during signup: " ++ e.sqlerrm, e.code⟩

/-- The result object an `AuthService` method returns to its caller
(and which the route layer serializes to the HTTP client verbatim). -/
structure ServiceResult where
  success : Bool
  message : String
  email : Option String := none
  userId : Option Nat := none
  errorCode : Option String := none
  deriving DecidableEq, Repr

/-- `AuthService.signup` (authService.js lines 11-37) as a function of
the database call's outcome. -/
def serviceSignup (outcome : Except JsError Bool) (uid : Nat)
    (email : String) : ServiceResult :=
  match outcome with
  | .ok true =>
    { success := true, message := "User signed up successfully",
      userId := some uid, email := some email }
  | .ok false =>
    { success := false, message := "Signup failed" }
  | .error e =>
    { success := false, message := e.message, errorCode := some e.code }

/-- `AuthService.authenticate` (authService.js lines 45-70) as a
function of the database call's outcome. -/
def serviceAuthenticate (outcome : Except JsError Bool)
    (email : String) : ServiceResult :=
  match outcome with
  | .ok true =>
    { success := true, message := "Authentication successful",
      email := some email }
  | .ok false =>
    { success := false, message := "Invalid credentials" }
  | .error e =>
    { success := false, message := e.message, errorCode := some e.code }

/-! ## Two concurrent signup calls, step by step

`signup` is a check-then-insert sequence. To reason about the race on
one identity we split a signup call into its two store-visiting steps —
the `COUNT` pre-check (init.sql lines 78-85) and the `INSERT` with its
constraints (lines 94-95) — and run two calls under an arbitrary
interleaving of those steps, each step seeing the store left by the
previous one. -/

/-- The arguments of one in-flight signup call. -/
structure SignupCall where
  uid : Nat
  mail : String
  rawpass : String
  salt : String
  deriving DecidableEq, Repr

deriving instance DecidableEq for Except

/-- Progress of one in-flight signup call: not yet started, pre-check
done (recording whether a row with the mail was seen), or finished with
the call's outcome. -/
inductive SignupPhase where
  | start
  | checked (saw : Bool)
  | done (r : Except DbErr Bool)
  deriving DecidableEq, Repr

/-- One store-visiting step of a signup call. From `start`, run the
`COUNT` pre-check. From `checked`, either raise `userExists` (when the
pre-check saw the mail) or attempt the `INSERT`, which commits on
success and leaves the store unchanged when a constraint rejects it.
A finished call steps no further. -/
def signupStep (H : String → String) (now : Nat) (p : SignupCall) :
    SignupPhase × Store → SignupPhase × Store
  | (.start, db) => (.checked (userCount db p.mail > 0), db)
  | (.checked saw, db) =>
    if saw then (.done (.error (.userExists p.mail)), db)
    else
      match insertRow db p.uid p.mail p.salt (H (p.salt ++ p.rawpass)) now with
      | .ok db' => (.done (.ok true), db')
      | .error e => (.done (.error e), db)
  | (.done r, db) => (.done r, db)

/-- Joint state of two concurrent signup calls `A` and `B` and the
shared store. -/
structure RaceState where
  phA : SignupPhase
  phB : SignupPhase
  db : Store
  deriving DecidableEq, Repr

/-- One scheduler step: `false` lets call `A` take its next step,
`true` lets call `B`. -/
def raceStep (H : String → String) (now : Nat) (pA pB : SignupCall)
    (st : RaceState) (turn : Bool) : RaceState :=
  if turn then
    let (ph, db') := signupStep H now pB (st.phB, st.db)
    ⟨st.phA, ph, db'⟩
  else
    let (ph, db') := signupStep H now pA (st.phA, st.db)
    ⟨ph, st.phB, db'⟩

/-- Run the two calls under a schedule: a list of turns, each entry
naming the call that performs its next step. -/
def raceRun (H : String → String) (now : Nat) (pA pB : SignupCall)
    (sched : List Bool) (db : Store) : RaceState :=
  sched.foldl (raceStep H now pA pB) ⟨.start, .start, db⟩

/-! ## Basic facts about the store queries -/

theorem userCount_eq_zero_iff (db : Store) (m : String) :
    userCount db m = 0 ↔ ∀ a ∈ db, a.mail ≠ m := by
  simp [userCount, List.length_eq_zero, List.filter_eq_nil_iff]

theorem userCount_pos_of_mem {db : Store} {a : Account} {m : String}
    (ha : a ∈ db) (hm : a.mail = m) : 0 < userCount db m := by
  by_contra h
  exact (userCount_eq_zero_iff db m).mp (Nat.eq_zero_of_not_pos h) a ha hm

/-- A successful `signup` call dissected: the pre-check saw no row with
the mail, the insert violated no constraint, and the new row was
appended with the hash of `salt ++ rawpass`. -/
theorem signup_ok_shape {H : String → String} {db : Store} {uid : Nat}
    {m rawpass salt : String} {now : Nat} {db' : Store} {b : Bool}
    (h : signup H db uid m rawpass salt now = .ok (db', b)) :
    userCount db m = 0 ∧
    db.any (fun a => a.userId = uid) = false ∧
    db.any (fun a => a.mail = m) = false ∧
    db' = db ++ [⟨uid, m, salt, H (salt ++ rawpass), now, now⟩] ∧
    b = true := by
  unfold signup insertRow at h
  split at h
  · exact absurd h (by simp)
  · next h0 =>
    split at h
    · exact absurd h (by simp)
    · split at h
      · exact absurd h (by simp)
      · next h1 h2 =>
        simp only [Except.ok.injEq, Prod.mk.injEq] at h
        exact ⟨Nat.eq_zero_of_not_pos h0, Bool.of_not_eq_true h1,
          Bool.of_not_eq_true h2, h.1.symm, h.2.symm⟩

/-- Claim C1: if `signup(id, identity, secret)` succeeds on a store not
containing the identity, then `authenticate(identity, secret)` on the
resulting store returns true — the hash stored by signup (digest of the
fresh salt concatenated with the secret) equals the hash recomputed by
authenticate from the stored salt and the same secret. -/
theorem signup_then_authenticate (H : String → String) (db : Store)
    (uid : Nat) (m rawpass salt : String) (now : Nat) (db' : Store) (b : Bool)
    (habs : userCount db m = 0)
    (h : signup H db uid m rawpass salt now = .ok (db', b)) :
    authenticate H db' m rawpass = true := by
  obtain ⟨-, -, hmail, rfl, -⟩ := signup_ok_shape h
  unfold authenticate findMail
  rw [List.find?_append]
  have hnone : db.find? (fun a => decide (a.mail = m)) = none := by
    rw [List.find?_eq_none]
    intro x hx
    simpa using List.any_eq_false.mp hmail x hx
  rw [hnone]
  simp

/-- Concrete instance of `signup_then_authenticate`. -/
theorem signup_then_authenticate_witness :
    authenticate (fun s => s) [⟨1, "a", "s", "sp", 0, 0⟩] "a" "p" = true :=
  signup_then_authenticate (fun s => s) [] 1 "a" "p" "s" 0
    [⟨1, "a", "s", "sp", 0, 0⟩] true (by decide) (by decide)

/-- Claim C4: `authenticate` on an absent identity returns false (a
normal outcome, not an error), and the caller-visible result is the
same as for a present identity with a non-matching secret: both runs
return false at the SQL level, and the service layer maps both to the
identical `Invalid credentials` result object. -/
theorem authenticate_absent_eq_wrong_secret (H : String → String)
    (db1 db2 : Store) (m s : String) (a : Account)
    (h1 : findMail db1 m = none)
    (h2 : findMail db2 m = some a)
    (h3 : H (a.salt ++ s) ≠ a.hashpass) :
    authenticate H db1 m s = false ∧
    authenticate H db2 m s = false ∧
    serviceAuthenticate (.ok (authenticate H db1 m s)) m =
      serviceAuthenticate (.ok (authenticate H db2 m s)) m ∧
    serviceAuthenticate (.ok (authenticate H db1 m s)) m =
      { success := false, message := "Invalid credentials" } := by
  have e1 : authenticate H db1 m s = false := by
    unfold authenticate
    rw [h1]
  have e2 : authenticate H db2 m s = false := by
    unfold authenticate
    rw [h2]
    simpa using h3
  refine ⟨e1, e2, ?_, ?_⟩
  · rw [e1, e2]
  · rw [e1]
    rfl

/-- Concrete instance of `authenticate_absent_eq_wrong_secret`. -/
theorem authenticate_absent_eq_wrong_secret_witness :
    authenticate (fun s => s) [] "a" "p" = false ∧
    authenticate (fun s => s) [⟨1, "a", "s", "x", 0, 0⟩] "a" "p" = false ∧
    serviceAuthenticate (.ok (authenticate (fun s => s) [] "a" "p")) "a" =
      serviceAuthenticate
        (.ok (authenticate (fun s => s) [⟨1, "a", "s", "x", 0, 0⟩] "a" "p")) "a" ∧
    serviceAuthenticate (.ok (authenticate (fun s => s) [] "a" "p")) "a" =
      { success := false, message := "Invalid credentials" } :=
  authenticate_absent_eq_wrong_secret (fun s => s) []
    [⟨1, "a", "s", "x", 0, 0⟩] "a" "p" ⟨1, "a", "s", "x", 0, 0⟩
    (by decide) (by decide) (by decide)

/-- Claim C5: `signup` on a store already containing the identity fails
with the `userExists` exception, whatever the supplied id and secret,
and the aborted transaction leaves the whole store — in particular the
pre-existing account's record — unchanged. -/
theorem signup_duplicate_identity (H : String → String) (db : Store)
    (a : Account) (uid2 : Nat) (m pass2 salt : String) (now : Nat)
    (ha : a ∈ db) (hm : a.mail = m) :
    signupApply H db uid2 m pass2 salt now = (db, .error (.userExists m)) := by
  have hc : 0 < userCount db m := userCount_pos_of_mem ha hm
  unfold signupApply signup
  simp [hc]

/-- Concrete instance of `signup_duplicate_identity`. -/
theorem signup_duplicate_identity_witness :
    signupApply (fun s => s) [⟨1, "a", "s", "sp", 0, 0⟩] 2 "a" "q" "t" 5 =
      ([⟨1, "a", "s", "sp", 0, 0⟩], .error (.userExists "a")) :=
  signup_duplicate_identity (fun s => s) [⟨1, "a", "s", "sp", 0, 0⟩]
    ⟨1, "a", "s", "sp", 0, 0⟩ 2 "a" "q" "t" 5 (by decide) (by decide)

/-- Claim C9: `signup` with a fresh identity but an already-used id
passes the mail pre-check and fails inside the `INSERT` with the
primary-key violation — a store-level error distinct from the
`userExists` exception — and the aborted call adds no account. -/
theorem signup_duplicate_id (H : String → String) (db : Store)
    (uid : Nat) (m pass salt : String) (now : Nat)
    (hm : userCount db m = 0)
    (hid : db.any (fun a => a.userId = uid) = true) :
    signupApply H db uid m pass salt now =
      (db, .error (.uniqueViolation "userauth_pkey")) ∧
    ∀ m', DbErr.uniqueViolation "userauth_pkey" ≠ DbErr.userExists m' := by
  refine ⟨?_, fun m' h => by cases h⟩
  unfold signupApply signup insertRow
  simp [hm, hid]

/-- Concrete instance of `signup_duplicate_id`. -/
theorem signup_duplicate_id_witness :
    signupApply (fun s => s) [⟨1, "a", "s", "sp", 0, 0⟩] 1 "b" "q" "t" 5 =
      ([⟨1, "a", "s", "sp", 0, 0⟩], .error (.uniqueViolation "userauth_pkey")) ∧
    ∀ m', DbErr.uniqueViolation "userauth_pkey" ≠ DbErr.userExists m' :=
  signup_duplicate_id (fun s => s) [⟨1, "a", "s", "sp", 0, 0⟩] 1 "b" "q" "t" 5
    (by decide) (by decide)

/-- Claim C10: in `change_email` the taken-identity check precedes the
password check: when the old identity exists, the new identity is
already present, and the supplied password is wrong, the call fails
with `emailInUse`, not `invalidPassword`. -/
theorem change_email_taken_checked_before_secret (H : String → String)
    (db : Store) (oldm newm pass : String) (now : Nat) (a : Account)
    (hfind : findMail db oldm = some a)
    (htaken : 0 < userCount db newm)
    (hwrong : H (a.salt ++ pass) ≠ a.hashpass) :
    change_email H db oldm newm pass now = .error (.emailInUse newm) := by
  unfold change_email
  rw [hfind]
  simp [htaken]

/-- Concrete instance of `change_email_taken_checked_before_secret`. -/
theorem change_email_taken_checked_before_secret_witness :
    change_email (fun s => s)
      [⟨1, "a", "s", "sp", 0, 0⟩, ⟨2, "b", "u", "uq", 0, 0⟩]
      "a" "b" "wrong" 5 = .error (.emailInUse "b") :=
  change_email_taken_checked_before_secret (fun s => s)
    [⟨1, "a", "s", "sp", 0, 0⟩, ⟨2, "b", "u", "uq", 0, 0⟩]
    "a" "b" "wrong" 5 ⟨1, "a", "s", "sp", 0, 0⟩
    (by decide) (by decide) (by decide)

/-- Claim C2, counterexample: the taken-mail `COUNT` in `change_email`
counts every row with the new mail, including the caller's own, so
changing an existing account to its own current identity with the
correct password fails with `emailInUse` — the claim says it must not
fail with IdentityTaken. -/
theorem change_email_self_counterexample :
    change_email (fun s => s) [⟨1, "a", "s", "sp", 0, 0⟩] "a" "a" "p" 1 =
      .error (.emailInUse "a") := by decide

/-- Claim C2, amended: given that the old identity exists,
`change_email` fails with `emailInUse` if and only if the new identity
is carried by any account — including the caller's own account, so a
change to one's own current identity also fails with `emailInUse`. -/
theorem change_email_identityTaken_iff (H : String → String) (db : Store)
    (oldm newm pass : String) (now : Nat) (a : Account)
    (hfind : findMail db oldm = some a) :
    change_email H db oldm newm pass now = .error (.emailInUse newm) ↔
      0 < userCount db newm := by
  unfold change_email
  rw [hfind]
  constructor
  · intro h
    by_contra hc
    simp [hc] at h
    split at h <;> first
    | (split at h <;> simp at h)
    | simp at h
  · intro h
    simp [h]

/-- Concrete instance of `change_email_identityTaken_iff`. -/
theorem change_email_identityTaken_iff_witness :
    (change_email (fun s => s) [⟨1, "a", "s", "sp", 0, 0⟩] "a" "a" "p" 1 =
        .error (.emailInUse "a") ↔
      0 < userCount [⟨1, "a", "s", "sp", 0, 0⟩] "a") :=
  change_email_identityTaken_iff (fun s => s) [⟨1, "a", "s", "sp", 0, 0⟩]
    "a" "a" "p" 1 ⟨1, "a", "s", "sp", 0, 0⟩ (by decide)

/-- Appending on the left is cancellative for strings. -/
theorem string_append_left_cancel {s t u : String} (h : s ++ t = s ++ u) :
    t = u := by
  apply String.ext
  have hd := congrArg String.data h
  simp only [String.data_append] at hd
  exact List.append_cancel_left hd

/-- A successful `change_password` call dissected: the account was
found, the old password matched, and the store was updated row-wise. -/
theorem change_password_ok_shape {H : String → String} {db : Store}
    {m oldp newp newSalt : String} {now : Nat} {db' : Store} {b : Bool}
    (h : change_password H db m oldp newp newSalt now = .ok (db', b)) :
    ∃ a, findMail db m = some a ∧ H (a.salt ++ oldp) = a.hashpass ∧
      db' = db.map (fun c =>
        if c.mail = m then
          update_updated_at_column now
            { c with salt := newSalt, hashpass := H (newSalt ++ newp) }
        else c) := by
  unfold change_password at h
  split at h
  · exact absurd h (by simp)
  · next a heq =>
    split at h
    · exact absurd h (by simp)
    · next hp =>
      refine ⟨a, heq, not_not.mp hp, ?_⟩
      split at h <;>
        (simp only [Except.ok.injEq, Prod.mk.injEq] at h; exact h.1.symm)

/-- Looking up a mail commutes with a row-wise update that does not
touch the mail column. -/
theorem findMail_map_of_mail_fixed (db : Store) (m : String)
    (f : Account → Account) (hf : ∀ c, (f c).mail = c.mail) :
    findMail (db.map f) m = (findMail db m).map f := by
  unfold findMail
  rw [List.find?_map]
  have hpf : ((fun a => decide (a.mail = m)) ∘ f) = fun a => decide (a.mail = m) := by
    funext c
    simp [Function.comp, hf]
  rw [hpf]

/-- Claim C3, counterexample: `change_password` with the new password
equal to the old one succeeds, and afterwards `authenticate` with the
old password still returns true — the claim requires it to reject. -/
theorem change_password_same_secret_counterexample :
    change_password (fun s => s) [⟨1, "a", "s", "sp", 0, 0⟩] "a" "p" "p" "t" 1 =
      .ok ([⟨1, "a", "t", "tp", 0, 1⟩], true) ∧
    authenticate (fun s => s) [⟨1, "a", "t", "tp", 0, 1⟩] "a" "p" = true := by
  decide

/-- Claim C3, amended: when the digest is collision-free and the new
secret differs from the old one, a successful
`change_password(identity, old, new)` makes `authenticate(identity,
old)` return false and `authenticate(identity, new)` return true on the
resulting store. (With `old = new` the call still succeeds but the old
secret necessarily keeps authenticating.) -/
theorem change_password_then_authenticate (H : String → String)
    (hinj : Function.Injective H) (db : Store)
    (m oldp newp newSalt : String) (now : Nat) (db' : Store) (b : Bool)
    (hne : oldp ≠ newp)
    (h : change_password H db m oldp newp newSalt now = .ok (db', b)) :
    authenticate H db' m oldp = false ∧ authenticate H db' m newp = true := by
  obtain ⟨a, hfind, -, rfl⟩ := change_password_ok_shape h
  have hmailfix : ∀ c : Account,
      ((if c.mail = m then
          update_updated_at_column now
            { c with salt := newSalt, hashpass := H (newSalt ++ newp) }
        else c)).mail = c.mail := by
    intro c
    split <;> rfl
  have hfind' := findMail_map_of_mail_fixed db m _ hmailfix
  rw [hfind] at hfind'
  have hamail : a.mail = m := by
    have h2 := List.find?_some (p := fun c : Account => decide (c.mail = m))
      (l := db) (a := a)
    simp only [findMail] at hfind
    simpa using h2 hfind
  have hkey : H (newSalt ++ oldp) ≠ H (newSalt ++ newp) := fun heq =>
    hne (string_append_left_cancel (hinj heq))
  constructor
  · unfold authenticate
    rw [hfind']
    simp [update_updated_at_column, hamail, hkey]
  · unfold authenticate
    rw [hfind']
    simp [update_updated_at_column, hamail]

/-- Concrete instance of `change_password_then_authenticate`. -/
theorem change_password_then_authenticate_witness :
    authenticate (fun s => s) [⟨1, "a", "t", "tq", 0, 1⟩] "a" "p" = false ∧
    authenticate (fun s => s) [⟨1, "a", "t", "tq", 0, 1⟩] "a" "q" = true :=
  change_password_then_authenticate (fun s => s) (fun _ _ hab => hab)
    [⟨1, "a", "s", "sp", 0, 0⟩] "a" "p" "q" "t" 1
    [⟨1, "a", "t", "tq", 0, 1⟩] true (by decide) (by decide)

/-- A successful `change_email` call dissected: the old mail was found,
no row carried the new mail, the password matched, and the store was
updated row-wise. -/
theorem change_email_ok_shape {H : String → String} {db : Store}
    {oldm newm pass : String} {now : Nat} {db' : Store} {b : Bool}
    (h : change_email H db oldm newm pass now = .ok (db', b)) :
    ∃ a, findMail db oldm = some a ∧ userCount db newm = 0 ∧
      H (a.salt ++ pass) = a.hashpass ∧
      db' = db.map (fun c =>
        if c.mail = oldm then
          update_updated_at_column now { c with mail := newm }
        else c) := by
  unfold change_email at h
  split at h
  · exact absurd h (by simp)
  · next a heq =>
    split at h
    · exact absurd h (by simp)
    · next hcount =>
      split at h
      · exact absurd h (by simp)
      · next hp =>
        refine ⟨a, heq, Nat.eq_zero_of_not_pos hcount, not_not.mp hp, ?_⟩
        split at h <;>
          (simp only [Except.ok.injEq, Prod.mk.injEq] at h; exact h.1.symm)

/-- Claim C6: a successful `change_email` keeps the store's size; every
account whose mail is not the old identity is carried over unchanged;
the affected account is carried over with the same id, salt, hash and
creation time, its mail replaced by the new identity and its
`updated_at` refreshed by the trigger; and every account of the new
store arises in one of these two ways. -/
theorem change_email_frame (H : String → String) (db : Store)
    (oldm newm pass : String) (now : Nat) (db' : Store) (b : Bool)
    (h : change_email H db oldm newm pass now = .ok (db', b)) :
    db'.length = db.length ∧
    (∀ a ∈ db, a.mail ≠ oldm → a ∈ db') ∧
    (∀ a ∈ db, a.mail = oldm →
      { a with mail := newm, updated_at := now } ∈ db') ∧
    (∀ a' ∈ db', (a' ∈ db ∧ a'.mail ≠ oldm) ∨
      ∃ a ∈ db, a.mail = oldm ∧
        a'.userId = a.userId ∧ a'.salt = a.salt ∧ a'.hashpass = a.hashpass ∧
        a'.created_at = a.created_at ∧ a'.mail = newm ∧
        a'.updated_at = now) := by
  obtain ⟨a0, -, -, -, rfl⟩ := change_email_ok_shape h
  refine ⟨List.length_map db _, ?_, ?_, ?_⟩
  · intro a ha hne
    have hfa : (if a.mail = oldm then
        update_updated_at_column now { a with mail := newm } else a) = a :=
      if_neg hne
    exact hfa ▸ List.mem_map_of_mem _ ha
  · intro a ha he
    have hfa : (if a.mail = oldm then
        update_updated_at_column now { a with mail := newm } else a) =
        { a with mail := newm, updated_at := now } := by
      rw [if_pos he]
      rfl
    exact hfa ▸ List.mem_map_of_mem _ ha
  · intro a' ha'
    rw [List.mem_map] at ha'
    obtain ⟨a, ha, rfl⟩ := ha'
    by_cases he : a.mail = oldm
    · right
      exact ⟨a, ha, he, by simp [if_pos he, update_updated_at_column]⟩
    · left
      rw [if_neg he]
      exact ⟨ha, he⟩

/-- Concrete instance of `change_email_frame`. -/
theorem change_email_frame_witness :
    ([⟨1, "c", "s", "sp", 0, 5⟩, ⟨2, "b", "u", "uq", 0, 0⟩] : Store).length =
      ([⟨1, "a", "s", "sp", 0, 0⟩, ⟨2, "b", "u", "uq", 0, 0⟩] : Store).length ∧
    (∀ a ∈ ([⟨1, "a", "s", "sp", 0, 0⟩, ⟨2, "b", "u", "uq", 0, 0⟩] : Store),
      a.mail ≠ "a" → a ∈ ([⟨1, "c", "s", "sp", 0, 5⟩, ⟨2, "b", "u", "uq", 0, 0⟩] : Store)) ∧
    (∀ a ∈ ([⟨1, "a", "s", "sp", 0, 0⟩, ⟨2, "b", "u", "uq", 0, 0⟩] : Store),
      a.mail = "a" → { a with mail := "c", updated_at := 5 } ∈
        ([⟨1, "c", "s", "sp", 0, 5⟩, ⟨2, "b", "u", "uq", 0, 0⟩] : Store)) ∧
    (∀ a' ∈ ([⟨1, "c", "s", "sp", 0, 5⟩, ⟨2, "b", "u", "uq", 0, 0⟩] : Store),
      (a' ∈ ([⟨1, "a", "s", "sp", 0, 0⟩, ⟨2, "b", "u", "uq", 0, 0⟩] : Store) ∧
        a'.mail ≠ "a") ∨
      ∃ a ∈ ([⟨1, "a", "s", "sp", 0, 0⟩, ⟨2, "b", "u", "uq", 0, 0⟩] : Store),
        a.mail = "a" ∧
        a'.userId = a.userId ∧ a'.salt = a.salt ∧ a'.hashpass = a.hashpass ∧
        a'.created_at = a.created_at ∧ a'.mail = "c" ∧ a'.updated_at = 5) :=
  change_email_frame (fun s => s)
    [⟨1, "a", "s", "sp", 0, 0⟩, ⟨2, "b", "u", "uq", 0, 0⟩]
    "a" "c" "p" 5 [⟨1, "c", "s", "sp", 0, 5⟩, ⟨2, "b", "u", "uq", 0, 0⟩] true
    (by decide)

/-- Claim C7 (evaluation at the failing input): when the underlying
store call fails, `AuthService.signup` places the raw error message —
a driver connectivity message, or the re-raised SQL error naming the
violated constraint — verbatim in the `message` field of the result
delivered to the caller, alongside the error code. -/
theorem serviceSignup_exposes_raw_driver_error :
    serviceSignup
        (.error ⟨"connect ECONNREFUSED 127.0.0.1:5432", "ECONNREFUSED"⟩)
        1 "a" =
      { success := false, message := "connect ECONNREFUSED 127.0.0.1:5432",
        errorCode := some "ECONNREFUSED" } ∧
    serviceSignup
        (.error (jsErrorOfSignup (.uniqueViolation "userauth_mail_key")))
        1 "a" =
      { success := false,
        message :=
          "Error during signup: duplicate key value violates unique constraint userauth_mail_key",
        errorCode := some "23505" } := by
  exact ⟨rfl, rfl⟩

theorem userCount_append (l1 l2 : Store) (m : String) :
    userCount (l1 ++ l2) m = userCount l1 m + userCount l2 m := by
  simp [userCount, List.filter_append]

theorem userCount_singleton_self (uid : Nat) (m salt hp : String)
    (c u : Nat) : userCount [⟨uid, m, salt, hp, c, u⟩] m = 1 := by
  simp [userCount]

/-- Claim C8, counterexample: in the interleaving where both pre-checks
run before either insert (A checks, B checks, A inserts, B inserts),
the losing call fails with the `INSERT`-level unique-constraint
violation, not with the `userExists` exception the pre-check raises —
so the loser does not fail with AlreadyExists. -/
theorem race_loser_not_alreadyExists_counterexample :
    raceRun (fun s => s) 0 ⟨1, "a", "p", "s"⟩ ⟨2, "a", "q", "t"⟩
        [false, true, false, true] [] =
      ⟨.done (.ok true),
       .done (.error (.uniqueViolation "userauth_mail_key")),
       [⟨1, "a", "s", "sp", 0, 0⟩]⟩ ∧
    ∀ m, DbErr.uniqueViolation "userauth_mail_key" ≠ DbErr.userExists m :=
  ⟨by decide, fun m h => by cases h⟩

/-- Claim C8, amended: for two concurrent signup calls with the same
identity and distinct fresh ids, under every interleaving of their
check and insert steps exactly one call succeeds and the other fails —
with the `userExists` exception when its pre-check saw the winner's
row, and with the store-level unique-constraint violation on the mail
column in the interleavings where both pre-checks ran before either
insert. -/
theorem race_exactly_one_succeeds (H : String → String) (now : Nat)
    (db : Store) (uidA uidB : Nat) (m passA passB saltA saltB : String)
    (sched : List Bool)
    (hlen : sched.length = 4) (hcount : sched.count true = 2)
    (hm : userCount db m = 0)
    (hA : db.any (fun a => a.userId = uidA) = false)
    (hB : db.any (fun a => a.userId = uidB) = false)
    (hAB : uidA ≠ uidB) :
    ((raceRun H now ⟨uidA, m, passA, saltA⟩ ⟨uidB, m, passB, saltB⟩ sched db).phA
        = .done (.ok true) ∧
      ((raceRun H now ⟨uidA, m, passA, saltA⟩ ⟨uidB, m, passB, saltB⟩ sched db).phB
          = .done (.error (.userExists m)) ∨
       (raceRun H now ⟨uidA, m, passA, saltA⟩ ⟨uidB, m, passB, saltB⟩ sched db).phB
          = .done (.error (.uniqueViolation "userauth_mail_key")))) ∨
    ((raceRun H now ⟨uidA, m, passA, saltA⟩ ⟨uidB, m, passB, saltB⟩ sched db).phB
        = .done (.ok true) ∧
      ((raceRun H now ⟨uidA, m, passA, saltA⟩ ⟨uidB, m, passB, saltB⟩ sched db).phA
          = .done (.error (.userExists m)) ∨
       (raceRun H now ⟨uidA, m, passA, saltA⟩ ⟨uidB, m, passB, saltB⟩ sched db).phA
          = .done (.error (.uniqueViolation "userauth_mail_key")))) := by
  have hmany : db.any (fun a => a.mail = m) = false := by
    rw [List.any_eq_false]
    intro x hx
    simpa using (userCount_eq_zero_iff db m).mp hm x hx
  have hBA : uidB ≠ uidA := hAB.symm
  rcases sched with _ | ⟨a, _ | ⟨b, _ | ⟨c, _ | ⟨d, rest⟩⟩⟩⟩
  · simp at hlen
  · simp at hlen
  · simp at hlen
  · simp at hlen
  · obtain rfl : rest = [] := by
      simpa [List.length_eq_zero] using hlen
    cases a <;> cases b <;> cases c <;> cases d <;>
      first
      | exact absurd hcount (by decide)
      | simp [raceRun, raceStep, signupStep, insertRow, userCount_append,
          userCount_singleton_self, hm, hA, hB, hmany, hAB, hBA]

/-- Concrete instance of `race_exactly_one_succeeds`. -/
theorem race_exactly_one_succeeds_witness :
    ((raceRun (fun s => s) 0 ⟨1, "a", "p", "s"⟩ ⟨2, "a", "q", "t"⟩
        [false, false, true, true] []).phA = .done (.ok true) ∧
      ((raceRun (fun s => s) 0 ⟨1, "a", "p", "s"⟩ ⟨2, "a", "q", "t"⟩
          [false, false, true, true] []).phB = .done (.error (.userExists "a")) ∨
       (raceRun (fun s => s) 0 ⟨1, "a", "p", "s"⟩ ⟨2, "a", "q", "t"⟩
          [false, false, true, true] []).phB
          = .done (.error (.uniqueViolation "userauth_mail_key")))) ∨
    ((raceRun (fun s => s) 0 ⟨1, "a", "p", "s"⟩ ⟨2, "a", "q", "t"⟩
        [false, false, true, true] []).phB = .done (.ok true) ∧
      ((raceRun (fun s => s) 0 ⟨1, "a", "p", "s"⟩ ⟨2, "a", "q", "t"⟩
          [false, false, true, true] []).phA = .done (.error (.userExists "a")) ∨
       (raceRun (fun s => s) 0 ⟨1, "a", "p", "s"⟩ ⟨2, "a", "q", "t"⟩
          [false, false, true, true] []).phA
          = .done (.error (.uniqueViolation "userauth_mail_key")))) :=
  race_exactly_one_succeeds (fun s => s) 0 [] 1 2 "a" "p" "q" "s" "t"
    [false, false, true, true] (by decide) (by decide) (by decide)
    (by decide) (by decide) (by decide)

end PgAuth
